import Mathlib

/-!
Shallow embedding of the `proofofclaw-a2a` a2a-bridge core
(`scripts/task_lifecycle.py` and `scripts/message_client.py`),
with theorems settling the frozen claims about it.

Python dictionaries are modelled as insertion-ordered association lists,
JSON-like values as the inductive `Json`, floats (only used for the task
progress, where the code merely clamps) as `Rat`, raised exceptions as
`Except` values, and the wall clock / uuid generator as explicit string
parameters.
-/

namespace A2A

/-- JSON-like values, the payloads the Python code passes around. -/
inductive Json where
  | null
  | bool (b : Bool)
  | num (n : Int)
  | str (s : String)
  | arr (elems : List Json)
  | obj (fields : List (String × Json))

/-- Python `value == "s"` for a JSON value against a string literal:
only a string with the same contents compares equal. -/
def Json.eqStr : Json → String → Bool
  | .str s, t => s = t
  | _, _ => false

/-- Python `value in [s1, ..., sn]` for a JSON value against string literals. -/
def Json.isOneOf (v : Json) (ss : List String) : Bool :=
  ss.any (fun s => v.eqStr s)

/-- A Python dict with JSON values: insertion-ordered association list. -/
abbrev Dict := List (String × Json)

/-- Key lookup in an insertion-ordered association list (`d[k]` / `d.get(k)`). -/
def lookupKey {α : Type} (m : List (String × α)) (k : String) : Option α :=
  match m with
  | [] => none
  | (k', v) :: rest => if k' = k then some v else lookupKey rest k

/-- `m[k] = v` on a Python dict: overwrite in place if the key exists,
append otherwise (Python dicts preserve insertion order). -/
def insertKey {α : Type} (m : List (String × α)) (k : String) (v : α) :
    List (String × α) :=
  match m with
  | [] => [(k, v)]
  | (k', v') :: rest =>
      if k' = k then (k, v) :: rest else (k', v') :: insertKey rest k v

/-- `del m[k]` on a Python dict. -/
def eraseKey {α : Type} (m : List (String × α)) (k : String) :
    List (String × α) :=
  match m with
  | [] => []
  | (k', v') :: rest =>
      if k' = k then rest else (k', v') :: eraseKey rest k

/-- `d.update(patch)`: merge `patch` into `d`, new keys added,
existing keys overwritten. -/
def dictUpdate (d : Dict) (patch : Dict) : Dict :=
  patch.foldl (fun acc kv => insertKey acc kv.1 kv.2) d

/-- `TaskState` enumeration of `task_lifecycle.py`. -/
inductive TaskState where
  | created
  | assigned
  | in_progress
  | completed
  | failed
  | cancelled
  deriving DecidableEq, Repr

/-- The `.value` string of each `TaskState` member. -/
def TaskState.value : TaskState → String
  | .created => "created"
  | .assigned => "assigned"
  | .in_progress => "in_progress"
  | .completed => "completed"
  | .failed => "failed"
  | .cancelled => "cancelled"

/-- The `TaskState(s)` enum constructor: `none` models the `ValueError`
raised on an unrecognized state string. -/
def TaskState.ofString : String → Option TaskState
  | "created" => some .created
  | "assigned" => some .assigned
  | "in_progress" => some .in_progress
  | "completed" => some .completed
  | "failed" => some .failed
  | "cancelled" => some .cancelled
  | _ => none

/-- The `Task` dataclass. Timestamps are the ISO strings the code stores. -/
structure Task where
  id : String
  task_type : String
  title : String
  description : String
  payload : Dict
  state : TaskState
  created_at : String
  updated_at : String
  assigned_to : Option String
  assigned_at : Option String
  result : Option Dict
  completed_at : Option String
  progress : Rat
  status_message : Option String
  priority : String
  deadline : Option String
  metadata : Dict
  error : Option String
  error_details : Option Dict

/-- The task-side exception hierarchy: `TaskNotFoundError` and
`InvalidTaskStateError`, each carrying its message string. -/
inductive TaskErr where
  | taskNotFound (msg : String)
  | invalidTaskState (msg : String)

/-- `TaskManager.VALID_TRANSITIONS`, verbatim from the source table. -/
def VALID_TRANSITIONS : TaskState → List TaskState
  | .created => [.assigned, .cancelled]
  | .assigned => [.in_progress, .cancelled, .failed]
  | .in_progress => [.completed, .failed, .cancelled]
  | .completed => []
  | .failed => []
  | .cancelled => []

/-- The `terminal_states` list spelled out in `cancel_task` / `fail_task` /
`get_active_tasks`. -/
def terminal_states : List TaskState := [.completed, .failed, .cancelled]

/-- The task store: `self.tasks`, a dict from task id to `Task`. -/
abbrev TaskMap := List (String × Task)

/-- `TaskManager.create_task`. `newId` is the generated `uuid4` and `now`
the `datetime.utcnow()` reading, passed explicitly. -/
def create_task (m : TaskMap) (newId task_type title description : String)
    (payload : Dict) (priority : String) (deadline : Option String)
    (metadata : Option Dict) (now : String) : TaskMap × Task :=
  let task : Task :=
    { id := newId, task_type := task_type, title := title,
      description := description, payload := payload, state := .created,
      created_at := now, updated_at := now, assigned_to := none,
      assigned_at := none, result := none, completed_at := none,
      progress := 0, status_message := none, priority := priority,
      deadline := deadline, metadata := metadata.getD [], error := none,
      error_details := none }
  (insertKey m newId task, task)

/-- `TaskManager.assign_task`. -/
def assign_task (m : TaskMap) (task_id agent_id now : String) :
    Except TaskErr (TaskMap × Task) :=
  match lookupKey m task_id with
  | none => .error (.taskNotFound ("Task " ++ task_id ++ " not found"))
  | some task =>
      if task.state ≠ TaskState.created then
        .error (.invalidTaskState
          ("Cannot assign task in state " ++ task.state.value))
      else
        let t : Task :=
          { task with state := .assigned, assigned_to := some agent_id,
                      assigned_at := some now, updated_at := now }
        .ok (insertKey m task_id t, t)

/-- `TaskManager.update_task_status`. -/
def update_task_status (m : TaskMap) (task_id new_state : String)
    (progress : Option Rat) (message : Option String)
    (metadata : Option Dict) (now : String) :
    Except TaskErr (TaskMap × Task) :=
  match lookupKey m task_id with
  | none => .error (.taskNotFound ("Task " ++ task_id ++ " not found"))
  | some task =>
      match TaskState.ofString new_state with
      | none => .error (.invalidTaskState ("Invalid task state: " ++ new_state))
      | some new_task_state =>
          if new_task_state ∉ VALID_TRANSITIONS task.state then
            .error (.invalidTaskState
              ("Invalid state transition: " ++ task.state.value ++ " -> "
                ++ new_state))
          else
            let t1 : Task := { task with state := new_task_state, updated_at := now }
            let t2 : Task :=
              match progress with
              | some p => { t1 with progress := max 0 (min 1 p) }
              | none => t1
            let t3 : Task :=
              match message with
              | some msg => { t2 with status_message := some msg }
              | none => t2
            let t4 : Task :=
              match metadata with
              | some patch => { t3 with metadata := dictUpdate t3.metadata patch }
              | none => t3
            .ok (insertKey m task_id t4, t4)

/-- `TaskManager.complete_task`. Note the source guards the metadata write
with `if execution_time_ms:` — Python truthiness, so `0` is skipped. -/
def complete_task (m : TaskMap) (task_id : String) (result : Dict)
    (execution_time_ms : Option Int) (now : String) :
    Except TaskErr (TaskMap × Task) :=
  match lookupKey m task_id with
  | none => .error (.taskNotFound ("Task " ++ task_id ++ " not found"))
  | some task =>
      if task.state ≠ TaskState.assigned ∧ task.state ≠ TaskState.in_progress then
        .error (.invalidTaskState
          ("Cannot complete task in state " ++ task.state.value))
      else
        let t : Task :=
          { task with state := .completed, result := some result,
                      completed_at := some now, updated_at := now }
        let t' : Task :=
          match execution_time_ms with
          | some ms =>
              if ms ≠ 0 then
                { t with metadata :=
                    insertKey t.metadata "execution_time_ms" (.num ms) }
              else t
          | none => t
        .ok (insertKey m task_id t', t')

/-- `TaskManager.cancel_task`. -/
def cancel_task (m : TaskMap) (task_id reason now : String) :
    Except TaskErr (TaskMap × Task) :=
  match lookupKey m task_id with
  | none => .error (.taskNotFound ("Task " ++ task_id ++ " not found"))
  | some task =>
      if task.state ∈ terminal_states then
        .error (.invalidTaskState
          ("Cannot cancel task in state " ++ task.state.value))
      else
        let t : Task :=
          { task with state := .cancelled,
                      status_message := some ("Cancelled: " ++ reason),
                      updated_at := now }
        .ok (insertKey m task_id t, t)

/-- `TaskManager.fail_task`. -/
def fail_task (m : TaskMap) (task_id err : String)
    (error_details : Option Dict) (now : String) :
    Except TaskErr (TaskMap × Task) :=
  match lookupKey m task_id with
  | none => .error (.taskNotFound ("Task " ++ task_id ++ " not found"))
  | some task =>
      if task.state ∈ terminal_states then
        .error (.invalidTaskState
          ("Cannot fail task in state " ++ task.state.value))
      else
        let t : Task :=
          { task with state := .failed, error := some err,
                      error_details := some (error_details.getD []),
                      updated_at := now }
        .ok (insertKey m task_id t, t)

/-- `TaskManager.get_task` (map read, no lock in the source). -/
def get_task (m : TaskMap) (task_id : String) : Option Task :=
  lookupKey m task_id

/-- `TaskManager.get_tasks_by_agent`. -/
def get_tasks_by_agent (m : TaskMap) (agent_id : String) : List Task :=
  (m.map Prod.snd).filter (fun t => t.assigned_to == some agent_id)

/-- `TaskManager.get_tasks_by_state`. -/
def get_tasks_by_state (m : TaskMap) (state : String) : List Task :=
  match TaskState.ofString state with
  | none => []
  | some task_state => (m.map Prod.snd).filter (fun t => t.state == task_state)

/-- `TaskManager.get_active_tasks`. -/
def get_active_tasks (m : TaskMap) : List Task :=
  (m.map Prod.snd).filter (fun t => ¬ terminal_states.contains t.state)

/-- `TaskManager.list_tasks`. -/
def list_tasks (m : TaskMap) : List Task := m.map Prod.snd

/-- `TaskManager.delete_task`. -/
def delete_task (m : TaskMap) (task_id : String) : TaskMap × Bool :=
  if (lookupKey m task_id).isSome then (eraseKey m task_id, true)
  else (m, false)

/-! ## Message client (`message_client.py`) -/

/-- `MessageType` enumeration. -/
inductive MessageType where
  | task_assignment
  | status_update
  | task_completion
  | ping
  | error
  deriving DecidableEq, Repr

/-- The `MessageType(s)` enum constructor; `none` models the `ValueError`
on an unknown type string. -/
def MessageType.ofString : String → Option MessageType
  | "task_assignment" => some .task_assignment
  | "status_update" => some .status_update
  | "task_completion" => some .task_completion
  | "ping" => some .ping
  | "error" => some .error
  | _ => none

/-- An inbound raw message dictionary as handed to `process_message`:
each wire field either absent (`none`) or present. The envelope fields the
code reads as strings are modelled as strings; `payload` is arbitrary JSON. -/
structure RawMsg where
  version : Option String
  message_id : Option String
  timestamp : Option String
  from_agent : Option String
  to_agent : Option String
  type : Option String
  payload : Option Json
  signature : Option String

/-- The exceptions flowing inside `process_message`'s `try` block:
`InvalidMessageError` and the `KeyError` a missing dict key raises. -/
inductive PyExc where
  | invalidMessage (msg : String)
  | keyError (key : String)
  deriving DecidableEq, Repr

/-- Python `str(e)` for the modelled exceptions (a `KeyError` renders as
the quoted key). -/
def PyExc.text : PyExc → String
  | .invalidMessage m => m
  | .keyError k => "'" ++ k ++ "'"

/-- The `A2AMessage` dataclass after `__post_init__`. -/
structure A2AMessage where
  version : String
  message_id : String
  timestamp : String
  from_agent : String
  to_agent : String
  type : MessageType
  payload : Json
  signature : Option String

/-- `A2AMessage.from_dict` followed by `__post_init__`.
`freshId` and `nowTs` are the `uuid4()` / `utcnow()` values `__post_init__`
substitutes for a falsy (empty) `message_id` / `timestamp`; a missing key
raises `KeyError` (not caught by the `except ValueError` around the
`MessageType` conversion). -/
def A2AMessage.from_dict (freshId nowTs : String) (data : RawMsg) :
    Except PyExc A2AMessage :=
  match data.type with
  | none => .error (.keyError "type")
  | some ty =>
      match MessageType.ofString ty with
      | none => .error (.invalidMessage ("Unknown message type: " ++ ty))
      | some msg_type =>
          match data.message_id with
          | none => .error (.keyError "message_id")
          | some mid =>
              match data.timestamp with
              | none => .error (.keyError "timestamp")
              | some ts =>
                  match data.from_agent with
                  | none => .error (.keyError "from")
                  | some fr =>
                      match data.to_agent with
                      | none => .error (.keyError "to")
                      | some toA =>
                          -- __post_init__: falsy message_id / timestamp are
                          -- auto-filled, a None payload becomes {}
                          .ok { version := data.version.getD "1.0.0",
                                message_id := if mid = "" then freshId else mid,
                                timestamp := if ts = "" then nowTs else ts,
                                from_agent := fr, to_agent := toA,
                                type := msg_type,
                                payload :=
                                  (match data.payload.getD (.obj []) with
                                   | .null => .obj []
                                   | p => p),
                                signature := data.signature }

/-- The two stdlib format checks `_validate_message` delegates to:
`uuid.UUID(s)` and `datetime.fromisoformat(s.replace("Z", "+00:00"))`
acceptance, abstracted as boolean predicates. -/
structure Validators where
  uuidOk : String → Bool
  tsOk : String → Bool

/-- The envelope-level part of `MessageClient._validate_message` (everything
before the `_validate_payload` call). The `if not message.type` check can
never fire: enum members are always truthy in Python. -/
def validate_envelope (V : Validators) (msg : A2AMessage) :
    Except PyExc Unit :=
  if msg.version ≠ "1.0.0" then
    .error (.invalidMessage ("Unsupported version: " ++ msg.version))
  else if msg.message_id = "" then
    .error (.invalidMessage "Missing message_id")
  else if msg.timestamp = "" then
    .error (.invalidMessage "Missing timestamp")
  else if msg.from_agent = "" then
    .error (.invalidMessage "Missing from field")
  else if msg.to_agent = "" then
    .error (.invalidMessage "Missing to field")
  else if ¬ V.uuidOk msg.message_id then
    .error (.invalidMessage ("Invalid message_id format: " ++ msg.message_id))
  else if ¬ V.tsOk msg.timestamp then
    .error (.invalidMessage ("Invalid timestamp format: " ++ msg.timestamp))
  else
    .ok ()

/-- A stand-in rendering of a JSON value inside a Python f-string, used
only in error texts no claim depends on. -/
def Json.pyText : Json → String
  | .str s => s
  | .num n => toString n
  | .bool true => "True"
  | .bool false => "False"
  | .null => "None"
  | .arr _ => "[...]"
  | .obj _ => "{...}"

/-- `for field in required: if field not in payload: raise ...` -/
def checkRequired (p : Dict) : List String → Except PyExc Unit
  | [] => pure ()
  | f :: rest =>
      if (lookupKey p f).isSome then checkRequired p rest
      else throw (.invalidMessage ("Missing required field: " ++ f))

/-- `MessageClient._validate_payload`. -/
def validate_payload (msg : A2AMessage) : Except PyExc Unit := do
  match msg.payload with
  | .obj p =>
      match msg.type with
      | .task_assignment => do
          checkRequired p ["task_id", "task_type", "title", "description",
                           "payload"]
          match lookupKey p "priority" with
          | some v =>
              if ¬ v.isOneOf ["low", "medium", "high", "urgent"] then
                throw (.invalidMessage ("Invalid priority: " ++ v.pyText))
              else pure ()
          | none => pure ()
      | .status_update => do
          checkRequired p ["task_id"]
          checkRequired p ["status"]
          match lookupKey p "status" with
          | some v =>
              if ¬ v.isOneOf ["created", "assigned", "in_progress",
                              "completed", "failed", "cancelled"] then
                throw (.invalidMessage ("Invalid status: " ++ v.pyText))
              else pure ()
          | none => pure ()
      | .task_completion => do
          checkRequired p ["task_id", "status", "result"]
          match lookupKey p "status" with
          | some v =>
              if ¬ v.isOneOf ["completed", "failed"] then
                throw (.invalidMessage
                  ("Invalid completion status: " ++ v.pyText))
              else pure ()
          | none => pure ()
      | .ping => checkRequired p ["nonce"]
      | .error => pure ()
  | _ => throw (.invalidMessage "Payload must be a dictionary")

/-- A registered handler: the call either returns (`.ok`) or raises an
exception rendered as a string (`.error`). -/
abbrev Handler := A2AMessage → Except String Unit

/-- The handler registry of a `MessageClient`: `self.message_handlers`,
the registration-ordered handler list per message type. -/
structure Client where
  handlers : MessageType → List Handler

/-- The dispatch loop of `process_message`: every handler is called in
registration order; a raised exception is caught (and logged), so the loop
continues either way. Returns the invocation trace: each handler's index
in registration order with its outcome. -/
def dispatch (msg : A2AMessage) : List Handler → List (Nat × Except String Unit)
  | [] => []
  | h :: rest =>
      let r := h msg
      (0, r) :: (dispatch msg rest).map (fun p => (p.1 + 1, p.2))

/-- The response dictionary `process_message` returns. -/
structure Response where
  status : String
  message_id : Option String
  processed_at : Option String
  error : Option String
  error_code : Option String
  deriving DecidableEq, Repr

/-- The `except` clauses of `process_message`: an `InvalidMessageError`
becomes an `INVALID_MESSAGE_FORMAT` response, any other exception an
`INTERNAL_ERROR` response. -/
def errorResponse : PyExc → Response
  | .invalidMessage m =>
      { status := "error", message_id := none, processed_at := none,
        error := m, error_code := some "INVALID_MESSAGE_FORMAT" }
  | e =>
      { status := "error", message_id := none, processed_at := none,
        error := e.text, error_code := some "INTERNAL_ERROR" }

/-- Instrumentation of a `process_message` run: which handlers were invoked
(indices in registration order) and whether `_validate_payload` was
reached. -/
structure ProcTrace where
  invoked : List Nat
  payloadConsulted : Bool
  deriving DecidableEq, Repr

/-- `MessageClient.process_message`: parse (`from_dict`), validate the
envelope, validate the payload, dispatch to every registered handler with
failure isolation, and return a success response echoing the message id —
or map the raised exception to a structured error response. -/
def process_message (V : Validators) (freshId nowTs : String) (C : Client)
    (data : RawMsg) : Response × ProcTrace :=
  match A2AMessage.from_dict freshId nowTs data with
  | .error e => (errorResponse e, ⟨[], false⟩)
  | .ok message =>
      match validate_envelope V message with
      | .error e => (errorResponse e, ⟨[], false⟩)
      | .ok _ =>
          match validate_payload message with
          | .error e => (errorResponse e, ⟨[], true⟩)
          | .ok _ =>
              let tr := dispatch message (C.handlers message.type)
              ({ status := "success", message_id := some message.message_id,
                 processed_at := some nowTs, error := none,
                 error_code := none },
               ⟨tr.map Prod.fst, true⟩)

/-! ## Operation sequences over the task store -/

/-- One invocation of a state-changing `TaskManager` operation, with the
wall-clock reading it would take. -/
inductive TaskOp where
  | assign (task_id agent_id now : String)
  | update (task_id new_state : String) (progress : Option Rat)
      (message : Option String) (metadata : Option Dict) (now : String)
  | complete (task_id : String) (result : Dict)
      (execution_time_ms : Option Int) (now : String)
  | cancel (task_id reason now : String)
  | fail (task_id err : String) (error_details : Option Dict) (now : String)

/-- Run one operation against the store. -/
def TaskOp.run (m : TaskMap) : TaskOp → Except TaskErr (TaskMap × Task)
  | .assign task_id agent_id now => assign_task m task_id agent_id now
  | .update task_id new_state progress message metadata now =>
      update_task_status m task_id new_state progress message metadata now
  | .complete task_id result ms now => complete_task m task_id result ms now
  | .cancel task_id reason now => cancel_task m task_id reason now
  | .fail task_id err details now => fail_task m task_id err details now

/-- The task id an operation targets. -/
def TaskOp.target : TaskOp → String
  | .assign task_id _ _ => task_id
  | .update task_id _ _ _ _ _ => task_id
  | .complete task_id _ _ _ => task_id
  | .cancel task_id _ _ => task_id
  | .fail task_id _ _ _ => task_id

/-- The legality check each operation applies to the current state of its
target task, read off the source: `assign_task` demands CREATED,
`update_task_status` consults `VALID_TRANSITIONS`, `complete_task` demands
ASSIGNED or IN_PROGRESS, `cancel_task` / `fail_task` reject terminal
states. -/
def TaskOp.allowed : TaskOp → TaskState → Bool
  | .assign _ _ _, s => s == .created
  | .update _ new_state _ _ _ _, s =>
      match TaskState.ofString new_state with
      | some s' => decide (s' ∈ VALID_TRANSITIONS s)
      | none => false
  | .complete _ _ _ _, s => s == .assigned || s == .in_progress
  | .cancel _ _ _, s => decide (s ∉ terminal_states)
  | .fail _ _ _ _, s => decide (s ∉ terminal_states)

/-- The store after an operation: the new map on success, unchanged on a
raised `TaskNotFoundError` / `InvalidTaskStateError` (the source mutates
nothing before its checks pass). -/
def applyOp (m : TaskMap) (op : TaskOp) : TaskMap :=
  match op.run m with
  | .ok (m', _) => m'
  | .error _ => m

/-- The store after a sequence of operations. -/
def runOps (m : TaskMap) (ops : List TaskOp) : TaskMap :=
  ops.foldl applyOp m

/-! ## Lock discipline of the task store

Each public `TaskManager` method is summarized by the sequences of
lock/shared-map events its body can perform, transcribed from the
`with self.lock:` blocks in the source. -/

/-- An event on the shared state: taking/releasing `self.lock`, or a read /
write of the shared `self.tasks` map. -/
inductive LockEvent where
  | acquire
  | release
  | read
  | write
  deriving DecidableEq, Repr

/-- The public operations of `TaskManager`. -/
inductive StoreOp where
  | create_task
  | assign_task
  | update_task_status
  | complete_task
  | cancel_task
  | fail_task
  | get_task
  | get_tasks_by_agent
  | get_tasks_by_state
  | get_active_tasks
  | list_tasks
  | delete_task
  deriving DecidableEq, Repr

/-- The possible event sequences of each public method, transcribed from
the source: the five guarded mutators read the map and either raise out of
the `with` block (releasing the lock) or write and return; `create_task`
only writes; `delete_task` reads (`in` test) and conditionally deletes;
the query methods read `self.tasks` with no `with self.lock:` around
them. `get_tasks_by_state` returns `[]` without touching the map when the
state string is unrecognized. -/
def opTraces : StoreOp → List (List LockEvent)
  | .create_task => [[.acquire, .write, .release]]
  | .assign_task => [[.acquire, .read, .release],
                     [.acquire, .read, .write, .release]]
  | .update_task_status => [[.acquire, .read, .release],
                            [.acquire, .read, .write, .release]]
  | .complete_task => [[.acquire, .read, .release],
                       [.acquire, .read, .write, .release]]
  | .cancel_task => [[.acquire, .read, .release],
                     [.acquire, .read, .write, .release]]
  | .fail_task => [[.acquire, .read, .release],
                   [.acquire, .read, .write, .release]]
  | .get_task => [[.read]]
  | .get_tasks_by_agent => [[.read]]
  | .get_tasks_by_state => [[], [.read]]
  | .get_active_tasks => [[.read]]
  | .list_tasks => [[.read]]
  | .delete_task => [[.acquire, .read, .write, .release],
                     [.acquire, .read, .release]]

/-- Every map access in the trace happens while the lock is held
(`held` is the lock state on entry). -/
def guardedFrom : Bool → List LockEvent → Bool
  | _, [] => true
  | _, .acquire :: rest => guardedFrom true rest
  | _, .release :: rest => guardedFrom false rest
  | held, .read :: rest => held && guardedFrom held rest
  | held, .write :: rest => held && guardedFrom held rest

/-- Lock state after running the trace from `held`. -/
def heldAfter : Bool → List LockEvent → Bool
  | held, [] => held
  | _, .acquire :: rest => heldAfter true rest
  | _, .release :: rest => heldAfter false rest
  | held, .read :: rest => heldAfter held rest
  | held, .write :: rest => heldAfter held rest

/-- A trace takes the critical section for all its shared-map accesses and
releases it by every exit. -/
def wellLocked (tr : List LockEvent) : Bool :=
  guardedFrom false tr && !(heldAfter false tr)

/-- The state-changing operations (acquire the lock in the source). -/
def mutatorOps : List StoreOp :=
  [.create_task, .assign_task, .update_task_status, .complete_task,
   .cancel_task, .fail_task, .delete_task]

/-- The cross-task / single-task query operations (no lock in the source). -/
def queryOps : List StoreOp :=
  [.get_task, .get_tasks_by_agent, .get_tasks_by_state, .get_active_tasks,
   .list_tasks]

/-! ## Concrete fixtures for witnesses and counterexamples -/

/-- A concrete task record in the given state, as `create_task` would
build it (before any assignment). -/
def sampleTask (st : TaskState) : Task :=
  { id := "t1", task_type := "research", title := "X", description := "",
    payload := [], state := st, created_at := "2025-01-01T00:00:00Z",
    updated_at := "2025-01-01T00:00:00Z", assigned_to := none,
    assigned_at := none, result := none, completed_at := none,
    progress := 0, status_message := none, priority := "medium",
    deadline := none, metadata := [], error := none, error_details := none }

/-- Hex digit test used by the concrete UUID format stand-in. -/
def isHexDigit (c : Char) : Bool :=
  c.isDigit || ('a' ≤ c && c ≤ 'f') || ('A' ≤ c && c ≤ 'F')

/-- Concrete stand-in for `uuid.UUID(s)` acceptance, used only to
instantiate the abstract `Validators` at witness inputs: accepts the
8-4-4-4-12 hex format (on which it agrees with the library). -/
def uuidOkModel (s : String) : Bool :=
  let cs := s.toList
  cs.length == 36 &&
  (List.range 36).all (fun i =>
    if i == 8 || i == 13 || i == 18 || i == 23 then cs.getD i ' ' == '-'
    else isHexDigit (cs.getD i ' '))

/-- Concrete stand-in for `datetime.fromisoformat` acceptance (after the
`"Z"` replacement), used only to instantiate `Validators` at witness
inputs: accepts the `YYYY-MM-DDTHH:MM:SS` shape (on which it agrees with
the library). -/
def tsOkModel (s : String) : Bool :=
  match s.toList with
  | [y1, y2, y3, y4, d1, mo1, mo2, d2, dd1, dd2, tt, h1, h2, c1, n1, n2,
     c2, s1, s2] =>
      [y1, y2, y3, y4, mo1, mo2, dd1, dd2, h1, h2, n1, n2, s1, s2].all
        Char.isDigit
      && d1 == '-' && d2 == '-' && tt == 'T' && c1 == ':' && c2 == ':'
  | _ => false

/-- The concrete validator pair used at witness inputs. -/
def sampleValidators : Validators := ⟨uuidOkModel, tsOkModel⟩

/-- A concrete valid UUID string, standing for a `uuid4()` reading. -/
def sampleUuid : String := "123e4567-e89b-12d3-a456-426614174000"

/-- A concrete parseable timestamp, standing for a `utcnow()` reading. -/
def sampleTs : String := "2025-01-01T00:00:00"

/-- A structurally valid inbound ping dictionary. -/
def samplePing : RawMsg :=
  { version := some "1.0.0", message_id := some sampleUuid,
    timestamp := some sampleTs, from_agent := some "agent-1",
    to_agent := some "agent-2", type := some "ping",
    payload := some (.obj [("nonce", .str "n")]), signature := none }

/-- A client with two ping handlers, the first of which raises. -/
def sampleClient : Client :=
  ⟨fun t => match t with
    | .ping => [fun _ => .error "boom", fun _ => .ok ()]
    | _ => []⟩

/-- The task record `assign_task` produces from `sampleTask .created`. -/
def sampleAssigned : Task :=
  { sampleTask .created with state := .assigned, assigned_to := some "a2",
                             assigned_at := some "n1", updated_at := "n1" }

/-- The record after `update_task_status(..., "in_progress", progress=2)`
on `sampleTask .assigned`: progress clamped to 1. -/
def c3After : Task :=
  { sampleTask .assigned with state := .in_progress, updated_at := "n2",
                              progress := max 0 (min 1 2) }

/-- The record after `update_task_status(..., "in_progress")` with no
optional arguments on `sampleTask .assigned`. -/
def c9After : Task :=
  { sampleTask .assigned with state := .in_progress, updated_at := "n2" }

/-- The record after `complete_task(..., execution_time_ms=5000)` on
`sampleTask .assigned`. -/
def c7After : Task :=
  { sampleTask .assigned with
      state := .completed,
      result := some [("x", Json.num 1)],
      completed_at := some "n3",
      updated_at := "n3",
      metadata := [("execution_time_ms", Json.num 5000)] }

/-- The parsed `A2AMessage` for `samplePing`. -/
def sampleMsg : A2AMessage :=
  { version := "1.0.0", message_id := sampleUuid, timestamp := sampleTs,
    from_agent := "agent-1", to_agent := "agent-2", type := .ping,
    payload := .obj [("nonce", .str "n")], signature := none }

/-- `samplePing` with an empty (falsy) `message_id`. -/
def rawEmptyMid : RawMsg := { samplePing with message_id := some "" }

/-- `samplePing` with the `from` key missing entirely. -/
def rawNoFrom : RawMsg := { samplePing with from_agent := none }

/-- `samplePing` with an empty `from` value. -/
def rawEmptyFrom : RawMsg := { samplePing with from_agent := some "" }

/-- `samplePing` with protocol version `"2.0.0"`. -/
def rawBadVersion : RawMsg := { samplePing with version := some "2.0.0" }

/-! ## Helper lemmas -/

theorem lookupKey_insertKey {α : Type} (m : List (String × α))
    (k k' : String) (v : α) :
    lookupKey (insertKey m k v) k' =
      if k = k' then some v else lookupKey m k' := by
  induction m with
  | nil => simp [insertKey, lookupKey]
  | cons hd tl ih =>
      obtain ⟨k0, v0⟩ := hd
      by_cases h0 : k0 = k <;> by_cases h1 : k = k' <;>
        simp_all [insertKey, lookupKey]

theorem lookupKey_insertKey_self {α : Type} (m : List (String × α))
    (k : String) (v : α) : lookupKey (insertKey m k v) k = some v := by
  simp [lookupKey_insertKey]

theorem lookupKey_insertKey_ne {α : Type} (m : List (String × α))
    {k k' : String} (v : α) (h : k ≠ k') :
    lookupKey (insertKey m k v) k' = lookupKey m k' := by
  simp [lookupKey_insertKey, h]

/-- Characterization of one store step: either the operation raised and the
map is untouched, or the target task was overwritten with a record whose
state is reached by a transition of the §4.1 table or one of the two extra
transitions the convenience operations apply (`fail_task`: CREATED→FAILED,
`complete_task`: ASSIGNED→COMPLETED). -/
theorem applyOp_char (m : TaskMap) (op : TaskOp) :
    applyOp m op = m ∨
    ∃ t t', lookupKey m op.target = some t ∧
      applyOp m op = insertKey m op.target t' ∧
      (t'.state ∈ VALID_TRANSITIONS t.state ∨
        (t.state = .created ∧ t'.state = .failed) ∨
        (t.state = .assigned ∧ t'.state = .completed)) := by
  cases op with
  | assign tid agent now =>
      simp only [applyOp, TaskOp.run, TaskOp.target, assign_task]
      split
      · rename_i m' t' heq
        split at heq
        · exact Except.noConfusion heq
        · rename_i task hlk
          split at heq
          · exact Except.noConfusion heq
          · rename_i hs
            push_neg at hs
            simp only [Except.ok.injEq, Prod.mk.injEq] at heq
            obtain ⟨hm, ht⟩ := heq
            subst hm
            refine Or.inr ⟨task, _, hlk, rfl, Or.inl ?_⟩
            rw [hs]
            exact (by decide :
              TaskState.assigned ∈ VALID_TRANSITIONS TaskState.created)
      · exact Or.inl rfl
  | update tid ns progress message metadata now =>
      simp only [applyOp, TaskOp.run, TaskOp.target, update_task_status]
      split
      · rename_i m' t' heq
        split at heq
        · exact Except.noConfusion heq
        · rename_i task hlk
          split at heq
          · exact Except.noConfusion heq
          · rename_i s' hos
            split at heq
            · exact Except.noConfusion heq
            · rename_i hmem
              push_neg at hmem
              simp only [Except.ok.injEq, Prod.mk.injEq] at heq
              obtain ⟨hm, ht⟩ := heq
              subst hm
              refine Or.inr ⟨task, _, hlk, rfl, Or.inl ?_⟩
              cases progress <;> cases message <;> cases metadata <;>
                exact hmem
      · exact Or.inl rfl
  | complete tid result ms now =>
      simp only [applyOp, TaskOp.run, TaskOp.target, complete_task]
      split
      · rename_i m' t' heq
        split at heq
        · exact Except.noConfusion heq
        · rename_i task hlk
          split at heq
          · exact Except.noConfusion heq
          · rename_i hs
            have hstates : task.state = TaskState.assigned ∨
                task.state = TaskState.in_progress := by
              by_cases ha : task.state = TaskState.assigned
              · exact Or.inl ha
              · by_cases hi : task.state = TaskState.in_progress
                · exact Or.inr hi
                · exact absurd ⟨ha, hi⟩ hs
            split at heq
            · rename_i v
              split at heq
              · simp only [Except.ok.injEq, Prod.mk.injEq] at heq
                obtain ⟨hm, ht⟩ := heq
                subst hm
                refine Or.inr ⟨task, _, hlk, rfl, ?_⟩
                rcases hstates with ha | ha
                · rw [ha]; exact Or.inr (Or.inr ⟨rfl, rfl⟩)
                · rw [ha]
                  exact Or.inl (by decide :
                    TaskState.completed ∈
                      VALID_TRANSITIONS TaskState.in_progress)
              · simp only [Except.ok.injEq, Prod.mk.injEq] at heq
                obtain ⟨hm, ht⟩ := heq
                subst hm
                refine Or.inr ⟨task, _, hlk, rfl, ?_⟩
                rcases hstates with ha | ha
                · rw [ha]; exact Or.inr (Or.inr ⟨rfl, rfl⟩)
                · rw [ha]
                  exact Or.inl (by decide :
                    TaskState.completed ∈
                      VALID_TRANSITIONS TaskState.in_progress)
            · simp only [Except.ok.injEq, Prod.mk.injEq] at heq
              obtain ⟨hm, ht⟩ := heq
              subst hm
              refine Or.inr ⟨task, _, hlk, rfl, ?_⟩
              rcases hstates with ha | ha
              · rw [ha]; exact Or.inr (Or.inr ⟨rfl, rfl⟩)
              · rw [ha]
                exact Or.inl (by decide :
                  TaskState.completed ∈
                    VALID_TRANSITIONS TaskState.in_progress)
      · exact Or.inl rfl
  | cancel tid reason now =>
      simp only [applyOp, TaskOp.run, TaskOp.target, cancel_task]
      split
      · rename_i m' t' heq
        split at heq
        · exact Except.noConfusion heq
        · rename_i task hlk
          split at heq
          · exact Except.noConfusion heq
          · rename_i hs
            simp only [Except.ok.injEq, Prod.mk.injEq] at heq
            obtain ⟨hm, ht⟩ := heq
            subst hm
            refine Or.inr ⟨task, _, hlk, rfl, Or.inl ?_⟩
            cases h : task.state <;> rw [h] at hs <;>
              first
                | (exact absurd (by decide) hs)
                | (exact (by decide : TaskState.cancelled ∈
                    VALID_TRANSITIONS TaskState.created))
                | (exact (by decide : TaskState.cancelled ∈
                    VALID_TRANSITIONS TaskState.assigned))
                | (exact (by decide : TaskState.cancelled ∈
                    VALID_TRANSITIONS TaskState.in_progress))
      · exact Or.inl rfl
  | fail tid err details now =>
      simp only [applyOp, TaskOp.run, TaskOp.target, fail_task]
      split
      · rename_i m' t' heq
        split at heq
        · exact Except.noConfusion heq
        · rename_i task hlk
          split at heq
          · exact Except.noConfusion heq
          · rename_i hs
            simp only [Except.ok.injEq, Prod.mk.injEq] at heq
            obtain ⟨hm, ht⟩ := heq
            subst hm
            refine Or.inr ⟨task, _, hlk, rfl, ?_⟩
            cases h : task.state <;> rw [h] at hs <;>
              first
                | (exact absurd (by decide) hs)
                | (exact Or.inr (Or.inl ⟨rfl, rfl⟩))
                | (exact Or.inl (by decide : TaskState.failed ∈
                    VALID_TRANSITIONS TaskState.assigned))
                | (exact Or.inl (by decide : TaskState.failed ∈
                    VALID_TRANSITIONS TaskState.in_progress))
      · exact Or.inl rfl

/-- When an operation's own legality check rejects the current state of its
(existing) target task, the operation raises `InvalidTaskStateError` and
the store is untouched. -/
theorem run_not_allowed {m : TaskMap} {op : TaskOp} {t : Task}
    (hlk : lookupKey m op.target = some t)
    (hna : op.allowed t.state = false) :
    (∃ e, op.run m = .error (.invalidTaskState e)) ∧ applyOp m op = m := by
  have hrun : ∃ e, op.run m = .error (.invalidTaskState e) := by
    cases op with
    | assign tid agent now =>
        simp only [TaskOp.target] at hlk
        simp only [TaskOp.allowed, beq_eq_false_iff_ne] at hna
        exact ⟨"Cannot assign task in state " ++ t.state.value,
          by simp [TaskOp.run, assign_task, hlk, hna]⟩
    | update tid ns progress message metadata now =>
        simp only [TaskOp.target] at hlk
        simp only [TaskOp.allowed] at hna
        cases hos : TaskState.ofString ns with
        | none =>
            exact ⟨"Invalid task state: " ++ ns,
              by simp [TaskOp.run, update_task_status, hlk, hos]⟩
        | some s' =>
            rw [hos] at hna
            have hmem : s' ∉ VALID_TRANSITIONS t.state := by
              simpa using hna
            exact ⟨"Invalid state transition: " ++ t.state.value ++ " -> "
                ++ ns,
              by simp [TaskOp.run, update_task_status, hlk, hos, hmem]⟩
    | complete tid result ms now =>
        simp only [TaskOp.target] at hlk
        simp only [TaskOp.allowed, Bool.or_eq_false_iff,
          beq_eq_false_iff_ne] at hna
        exact ⟨"Cannot complete task in state " ++ t.state.value,
          by simp [TaskOp.run, complete_task, hlk, hna.1, hna.2]⟩
    | cancel tid reason now =>
        simp only [TaskOp.target] at hlk
        simp only [TaskOp.allowed, decide_eq_false_iff_not, not_not] at hna
        exact ⟨"Cannot cancel task in state " ++ t.state.value,
          by simp [TaskOp.run, cancel_task, hlk, hna]⟩
    | fail tid err details now =>
        simp only [TaskOp.target] at hlk
        simp only [TaskOp.allowed, decide_eq_false_iff_not, not_not] at hna
        exact ⟨"Cannot fail task in state " ++ t.state.value,
          by simp [TaskOp.run, fail_task, hlk, hna]⟩
  obtain ⟨e, he⟩ := hrun
  exact ⟨⟨e, he⟩, by simp [applyOp, he]⟩

/-- Every operation's legality check rejects a terminal state. -/
theorem allowed_false_of_terminal (op : TaskOp) {s : TaskState}
    (h : s ∈ terminal_states) : op.allowed s = false := by
  have hs : s = TaskState.completed ∨ s = TaskState.failed ∨
      s = TaskState.cancelled := by simpa [terminal_states] using h
  cases op with
  | assign _ _ _ => rcases hs with h | h | h <;> subst h <;> rfl
  | update _ ns _ _ _ _ =>
      cases hos : TaskState.ofString ns with
      | none => simp [TaskOp.allowed, hos]
      | some s' =>
          rcases hs with h | h | h <;> subst h <;>
            simp [TaskOp.allowed, hos, VALID_TRANSITIONS]
  | complete _ _ _ _ => rcases hs with h | h | h <;> subst h <;> rfl
  | cancel _ _ _ =>
      rcases hs with h | h | h <;> subst h <;>
        simp [TaskOp.allowed, terminal_states]
  | fail _ _ _ _ =>
      rcases hs with h | h | h <;> subst h <;>
        simp [TaskOp.allowed, terminal_states]

/-- A task sitting in a terminal state is left exactly as it is by any
single operation. -/
theorem applyOp_terminal_fixed {m : TaskMap} {id : String} {t : Task}
    (op : TaskOp) (hlk : lookupKey m id = some t)
    (hterm : t.state ∈ terminal_states) :
    lookupKey (applyOp m op) id = some t := by
  by_cases hid : op.target = id
  · have hlk' : lookupKey m op.target = some t := by rw [hid]; exact hlk
    rw [(run_not_allowed hlk' (allowed_false_of_terminal op hterm)).2]
    exact hlk
  · rcases applyOp_char m op with hch | ⟨t0, t1, _, happ, _⟩
    · rw [hch]; exact hlk
    · rw [happ, lookupKey_insertKey_ne _ _ hid]; exact hlk

/-- A task sitting in a terminal state is left exactly as it is by any
operation sequence. -/
theorem runOps_terminal_fixed {m : TaskMap} {id : String} {t : Task}
    (ops : List TaskOp) (hlk : lookupKey m id = some t)
    (hterm : t.state ∈ terminal_states) :
    lookupKey (runOps m ops) id = some t := by
  induction ops generalizing m with
  | nil => exact hlk
  | cons op ops ih => exact ih (applyOp_terminal_fixed op hlk hterm)

/-- C1 (amended): on any store, every state change an operation actually
applies to a task is either a row of the §4.1 `VALID_TRANSITIONS` table or
one of the two extra transitions the convenience operations allow
(`fail_task`: CREATED→FAILED, `complete_task`: ASSIGNED→COMPLETED); and
whenever an operation's legality check rejects the attempted transition it
raises `InvalidTaskStateError` and leaves the store (hence the task's
state) unchanged. -/
theorem claim1_transition_table (m : TaskMap) (op : TaskOp) :
    (∀ id t t', lookupKey m id = some t →
        lookupKey (applyOp m op) id = some t' →
        t'.state = t.state ∨ t'.state ∈ VALID_TRANSITIONS t.state ∨
          (t.state = .created ∧ t'.state = .failed) ∨
          (t.state = .assigned ∧ t'.state = .completed)) ∧
    (∀ t, lookupKey m op.target = some t → op.allowed t.state = false →
        (∃ e, op.run m = .error (.invalidTaskState e)) ∧ applyOp m op = m) := by
  constructor
  · intro id t t' h1 h2
    rcases applyOp_char m op with hch | ⟨t0, t1, hl, happ, hcond⟩
    · rw [hch, h1] at h2
      injection h2 with h
      subst h
      exact Or.inl rfl
    · by_cases hid : op.target = id
      · subst hid
        rw [happ, lookupKey_insertKey_self] at h2
        rw [hl] at h1
        injection h1 with h1'
        injection h2 with h2'
        subst h1'
        subst h2'
        exact Or.inr hcond
      · rw [happ, lookupKey_insertKey_ne _ _ hid, h1] at h2
        injection h2 with h
        subst h
        exact Or.inl rfl
  · intro t hlk hna
    exact run_not_allowed hlk hna

/-- Witness for C1's theorem at concrete inputs: an `assign_task` step on a
CREATED task lands in the table, and a `cancel_task` attempt on a COMPLETED
task raises `InvalidTaskStateError` leaving the store unchanged. -/
theorem claim1_transition_table_witness :
    (sampleAssigned.state = (sampleTask .created).state ∨
      sampleAssigned.state ∈ VALID_TRANSITIONS (sampleTask .created).state ∨
      ((sampleTask .created).state = .created ∧
        sampleAssigned.state = .failed) ∨
      ((sampleTask .created).state = .assigned ∧
        sampleAssigned.state = .completed)) ∧
    ((∃ e, (TaskOp.cancel "t1" "r" "n1").run
          [("t1", sampleTask .completed)] = .error (.invalidTaskState e)) ∧
      applyOp [("t1", sampleTask .completed)] (TaskOp.cancel "t1" "r" "n1") =
        [("t1", sampleTask .completed)]) := by
  constructor
  · exact (claim1_transition_table [("t1", sampleTask .created)]
      (TaskOp.assign "t1" "a2" "n1")).1 "t1" (sampleTask .created)
      sampleAssigned rfl rfl
  · exact (claim1_transition_table [("t1", sampleTask .completed)]
      (TaskOp.cancel "t1" "r" "n1")).2 (sampleTask .completed) rfl rfl

/-- C1 as stated is false on the code: `fail_task` on a CREATED task
succeeds and applies CREATED→FAILED, which is not a row of the §4.1
table. -/
theorem claim1_counterexample :
    (lookupKey [("t1", sampleTask .created)] "t1").map Task.state =
      some TaskState.created ∧
    (lookupKey (applyOp [("t1", sampleTask .created)]
        (TaskOp.fail "t1" "boom" none "n1")) "t1").map Task.state =
      some TaskState.failed ∧
    TaskState.failed ∉ VALID_TRANSITIONS TaskState.created :=
  ⟨rfl, rfl, by decide⟩

/-- C4: terminal states are absorbing — on a task in COMPLETED, FAILED or
CANCELLED, every state-changing operation targeting it raises
`InvalidTaskStateError`, and after any sequence of store operations the
task record (in particular its state) is unchanged. -/
theorem claim4_terminal_absorbing (m : TaskMap) (id : String) (t : Task)
    (hlk : lookupKey m id = some t) (hterm : t.state ∈ terminal_states) :
    (∀ op : TaskOp, op.target = id →
        ∃ e, op.run m = .error (.invalidTaskState e)) ∧
    (∀ ops : List TaskOp, lookupKey (runOps m ops) id = some t) := by
  constructor
  · intro op hop
    have hlk' : lookupKey m op.target = some t := by rw [hop]; exact hlk
    exact (run_not_allowed hlk' (allowed_false_of_terminal op hterm)).1
  · intro ops
    exact runOps_terminal_fixed ops hlk hterm

/-- Witness for C4's theorem: on a FAILED task, `assign_task` raises and a
cancel-then-update sequence leaves the record untouched. -/
theorem claim4_terminal_absorbing_witness :
    (∃ e, (TaskOp.assign "t1" "a9" "n9").run [("t1", sampleTask .failed)] =
        .error (.invalidTaskState e)) ∧
    lookupKey (runOps [("t1", sampleTask .failed)]
        [TaskOp.cancel "t1" "r" "n9",
         TaskOp.update "t1" "in_progress" none none none "n9"]) "t1" =
      some (sampleTask .failed) := by
  have h := claim4_terminal_absorbing [("t1", sampleTask .failed)] "t1"
    (sampleTask .failed) rfl (by decide)
  exact ⟨h.1 (TaskOp.assign "t1" "a9" "n9") rfl, h.2 _⟩

/-- C3: a successful `update_task_status` call that supplies a progress
value stores exactly `max(0.0, min(1.0, requestedProgress))` on the task. -/
theorem claim3_progress_clamped (m : TaskMap) (task_id new_state : String)
    (p : Rat) (message : Option String) (md : Option Dict) (now : String)
    (m' : TaskMap) (t' : Task)
    (h : update_task_status m task_id new_state (some p) message md now =
      .ok (m', t')) :
    t'.progress = max 0 (min 1 p) ∧ lookupKey m' task_id = some t' := by
  unfold update_task_status at h
  split at h
  · exact Except.noConfusion h
  · rename_i task hlk
    split at h
    · exact Except.noConfusion h
    · rename_i s' hos
      split at h
      · exact Except.noConfusion h
      · rename_i hmem
        simp only [Except.ok.injEq, Prod.mk.injEq] at h
        obtain ⟨hm, ht⟩ := h
        subst hm
        subst ht
        constructor
        · cases message <;> cases md <;> rfl
        · exact lookupKey_insertKey_self m task_id _

/-- Witness for C3's theorem: updating an ASSIGNED task to IN_PROGRESS with
requested progress 2 stores the clamp `max 0 (min 1 2)` (= 1). -/
theorem claim3_progress_clamped_witness :
    c3After.progress = max 0 (min 1 2) ∧
    lookupKey [("t1", c3After)] "t1" = some c3After :=
  claim3_progress_clamped [("t1", sampleTask .assigned)] "t1" "in_progress"
    2 none none "n2" [("t1", c3After)] c3After rfl

/-- C9: a successful `update_task_status` writes only the fields whose
arguments were supplied — every other field is copied unchanged, and
`updated_at` is always rewritten to the current time. -/
theorem claim9_update_frame (m : TaskMap) (task_id new_state : String)
    (progress : Option Rat) (message : Option String) (md : Option Dict)
    (now : String) (m' : TaskMap) (t t' : Task)
    (hlk : lookupKey m task_id = some t)
    (h : update_task_status m task_id new_state progress message md now =
      .ok (m', t')) :
    t'.id = t.id ∧ t'.task_type = t.task_type ∧ t'.title = t.title ∧
    t'.description = t.description ∧ t'.payload = t.payload ∧
    t'.created_at = t.created_at ∧ t'.assigned_to = t.assigned_to ∧
    t'.assigned_at = t.assigned_at ∧ t'.result = t.result ∧
    t'.completed_at = t.completed_at ∧ t'.priority = t.priority ∧
    t'.deadline = t.deadline ∧ t'.error = t.error ∧
    t'.error_details = t.error_details ∧ t'.updated_at = now ∧
    (progress = none → t'.progress = t.progress) ∧
    (message = none → t'.status_message = t.status_message) ∧
    (md = none → t'.metadata = t.metadata) := by
  unfold update_task_status at h
  split at h
  · exact Except.noConfusion h
  · rename_i task hlk2
    rw [hlk] at hlk2
    injection hlk2 with he
    subst he
    split at h
    · exact Except.noConfusion h
    · rename_i s' hos
      split at h
      · exact Except.noConfusion h
      · rename_i hmem
        simp only [Except.ok.injEq, Prod.mk.injEq] at h
        obtain ⟨hm, ht⟩ := h
        subst hm
        subst ht
        cases progress <;> cases message <;> cases md <;> simp

/-- Witness for C9's theorem: updating an ASSIGNED task to IN_PROGRESS with
no optional arguments rewrites only `state` and `updated_at`. -/
theorem claim9_update_frame_witness :
    c9After.progress = (sampleTask .assigned).progress ∧
    c9After.status_message = (sampleTask .assigned).status_message ∧
    c9After.metadata = (sampleTask .assigned).metadata ∧
    c9After.assigned_to = (sampleTask .assigned).assigned_to ∧
    c9After.updated_at = "n2" := by
  have h := claim9_update_frame [("t1", sampleTask .assigned)] "t1"
    "in_progress" none none none "n2" [("t1", c9After)]
    (sampleTask .assigned) c9After rfl rfl
  exact ⟨h.2.2.2.2.2.2.2.2.2.2.2.2.2.2.2.1 rfl,
         h.2.2.2.2.2.2.2.2.2.2.2.2.2.2.2.2.1 rfl,
         h.2.2.2.2.2.2.2.2.2.2.2.2.2.2.2.2.2 rfl,
         h.2.2.2.2.2.2.1, h.2.2.2.2.2.2.2.2.2.2.2.2.2.2.1⟩

/-- C7 (amended): a successful `complete_task` sets state COMPLETED, stores
the result, stamps the completion time; a supplied `execution_time_ms` is
recorded in metadata only when non-zero — the Python truthiness guard
`if execution_time_ms:` drops the value 0, leaving metadata unchanged. -/
theorem claim7_completion_fields (m : TaskMap) (task_id : String)
    (result : Dict) (ms : Int) (now : String) (m' : TaskMap) (t t' : Task)
    (hlk : lookupKey m task_id = some t)
    (h : complete_task m task_id result (some ms) now = .ok (m', t')) :
    t'.state = TaskState.completed ∧ t'.result = some result ∧
    t'.completed_at = some now ∧ t'.updated_at = now ∧
    (ms ≠ 0 → lookupKey t'.metadata "execution_time_ms" =
        some (Json.num ms)) ∧
    (ms = 0 → t'.metadata = t.metadata) ∧
    lookupKey m' task_id = some t' := by
  unfold complete_task at h
  split at h
  · exact Except.noConfusion h
  · rename_i task hlk2
    rw [hlk] at hlk2
    injection hlk2 with he
    subst he
    split at h
    · exact Except.noConfusion h
    · rename_i hs
      simp only [Except.ok.injEq, Prod.mk.injEq] at h
      obtain ⟨hm, ht⟩ := h
      by_cases hv : ms ≠ 0
      · rw [if_pos hv] at hm ht
        subst hm
        subst ht
        refine ⟨rfl, rfl, rfl, rfl, fun _ => ?_, fun h0 => absurd h0 hv, ?_⟩
        · exact lookupKey_insertKey_self _ _ _
        · exact lookupKey_insertKey_self _ _ _
      · rw [if_neg hv] at hm ht
        subst hm
        subst ht
        push_neg at hv
        refine ⟨rfl, rfl, rfl, rfl, fun h0 => absurd hv h0, fun _ => rfl, ?_⟩
        exact lookupKey_insertKey_self _ _ _

/-- Witness for C7's theorem: completing an ASSIGNED task with
`execution_time_ms = 5000` records the key in metadata. -/
theorem claim7_completion_fields_witness :
    c7After.state = TaskState.completed ∧
    c7After.result = some [("x", Json.num 1)] ∧
    c7After.completed_at = some "n3" ∧
    lookupKey c7After.metadata "execution_time_ms" =
      some (Json.num 5000) := by
  have h := claim7_completion_fields [("t1", sampleTask .assigned)] "t1"
    [("x", Json.num 1)] 5000 "n3" [("t1", c7After)] (sampleTask .assigned)
    c7After rfl rfl
  exact ⟨h.1, h.2.1, h.2.2.1, h.2.2.2.2.1 (by decide)⟩

/-- C7 as stated is false on the code: completing with
`execution_time_ms = 0` succeeds but does not record the key — the
Python truthiness guard skips the value 0. -/
theorem claim7_counterexample :
    (complete_task [("t1", sampleTask .assigned)] "t1" [("x", Json.num 1)]
        (some 0) "n3").toOption.map
      (fun pr => lookupKey pr.2.metadata "execution_time_ms") =
      some none := rfl

/-- A run of `validate_envelope` that returns cleanly certifies every
envelope-level guard. -/
theorem validate_envelope_ok {V : Validators} {msg : A2AMessage}
    (h : validate_envelope V msg = .ok ()) :
    msg.version = "1.0.0" ∧ msg.message_id ≠ "" ∧ msg.timestamp ≠ "" ∧
    msg.from_agent ≠ "" ∧ msg.to_agent ≠ "" ∧
    V.uuidOk msg.message_id = true ∧ V.tsOk msg.timestamp = true := by
  unfold validate_envelope at h
  split_ifs at h with h1 h2 h3 h4 h5 h6 h7
  exact ⟨not_ne_iff.mp h1, h2, h3, h4, h5, h6, h7⟩

/-- Every failing path of `validate_envelope` raises
`InvalidMessageError`. -/
theorem validate_envelope_error_shape (V : Validators) (msg : A2AMessage) :
    validate_envelope V msg = .ok () ∨
    ∃ e, validate_envelope V msg = .error (.invalidMessage e) := by
  unfold validate_envelope
  split_ifs <;> first | (exact Or.inl rfl) | (exact Or.inr ⟨_, rfl⟩)

/-- `from_dict` on a dictionary with all envelope keys present and a
recognized type string. -/
theorem from_dict_keys_present (freshId nowTs : String) (raw : RawMsg)
    {ty mid ts fr toA : String} {mt : MessageType}
    (hty : raw.type = some ty) (hos : MessageType.ofString ty = some mt)
    (hmid : raw.message_id = some mid) (hts : raw.timestamp = some ts)
    (hfr : raw.from_agent = some fr) (hto : raw.to_agent = some toA) :
    A2AMessage.from_dict freshId nowTs raw =
      .ok { version := raw.version.getD "1.0.0",
            message_id := if mid = "" then freshId else mid,
            timestamp := if ts = "" then nowTs else ts,
            from_agent := fr, to_agent := toA, type := mt,
            payload := (match raw.payload.getD (.obj []) with
                        | .null => .obj []
                        | p => p),
            signature := raw.signature } := by
  simp [A2AMessage.from_dict, hty, hos, hmid, hts, hfr, hto]

/-- `from_dict` on an unknown type string raises `InvalidMessageError`. -/
theorem from_dict_unknown_type (freshId nowTs : String) (raw : RawMsg)
    {ty : String} (hty : raw.type = some ty)
    (hos : MessageType.ofString ty = none) :
    A2AMessage.from_dict freshId nowTs raw =
      .error (.invalidMessage ("Unknown message type: " ++ ty)) := by
  simp [A2AMessage.from_dict, hty, hos]

/-- `from_dict` on a dictionary missing the `from` key raises `KeyError`. -/
theorem from_dict_missing_from (freshId nowTs : String) (raw : RawMsg)
    {ty mid ts : String} {mt : MessageType}
    (hty : raw.type = some ty) (hos : MessageType.ofString ty = some mt)
    (hmid : raw.message_id = some mid) (hts : raw.timestamp = some ts)
    (hfr : raw.from_agent = none) :
    A2AMessage.from_dict freshId nowTs raw = .error (.keyError "from") := by
  simp [A2AMessage.from_dict, hty, hos, hmid, hts, hfr]

/-- A parse failure short-circuits `process_message`. -/
theorem process_message_error_of_from_dict {V : Validators}
    {freshId nowTs : String} {C : Client} {raw : RawMsg} {e : PyExc}
    (hfd : A2AMessage.from_dict freshId nowTs raw = .error e) :
    process_message V freshId nowTs C raw = (errorResponse e, ⟨[], false⟩) := by
  simp [process_message, hfd]

/-- An envelope-validation failure short-circuits `process_message` before
the payload validator runs. -/
theorem process_message_error_of_envelope {V : Validators}
    {freshId nowTs : String} {C : Client} {raw : RawMsg}
    {message : A2AMessage} {e : PyExc}
    (hfd : A2AMessage.from_dict freshId nowTs raw = .ok message)
    (henv : validate_envelope V message = .error e) :
    process_message V freshId nowTs C raw = (errorResponse e, ⟨[], false⟩) := by
  simp [process_message, hfd, henv]

/-- The dispatch loop visits every registered handler, in registration
order, whatever each handler returns or raises. -/
theorem dispatch_indices (msg : A2AMessage) (hs : List Handler) :
    (dispatch msg hs).map Prod.fst = List.range hs.length := by
  induction hs with
  | nil => rfl
  | cons h rest ih =>
      simp only [dispatch, List.map_cons, List.map_map, List.length_cons,
        List.range_succ_eq_map, ← ih]
      constructor

/-- C10: `process_message` is total at its interface — for every inbound
dictionary it returns a response whose status is `"success"` or
`"error"`, and every failure carries error code `INVALID_MESSAGE_FORMAT`
or `INTERNAL_ERROR`; no exception escapes (totality of the embedding). -/
theorem claim10_total_interface (V : Validators) (freshId nowTs : String)
    (C : Client) (raw : RawMsg) :
    ((process_message V freshId nowTs C raw).1.status = "success" ∨
      (process_message V freshId nowTs C raw).1.status = "error") ∧
    ((process_message V freshId nowTs C raw).1.status = "error" →
      (process_message V freshId nowTs C raw).1.error_code =
          some "INVALID_MESSAGE_FORMAT" ∨
        (process_message V freshId nowTs C raw).1.error_code =
          some "INTERNAL_ERROR") := by
  unfold process_message
  cases hfd : A2AMessage.from_dict freshId nowTs raw with
  | error e => cases e <;> simp [hfd, errorResponse, PyExc.text]
  | ok message =>
      cases henv : validate_envelope V message with
      | error e => cases e <;> simp [hfd, henv, errorResponse, PyExc.text]
      | ok u =>
          cases hpl : validate_payload message with
          | error e =>
              cases e <;> simp [hfd, henv, hpl, errorResponse, PyExc.text]
          | ok u2 => simp [hfd, henv, hpl]

/-- Witness for C10's theorem at a concrete input: a dictionary missing
the `from` key still yields a well-formed error response with one of the
two error codes. -/
theorem claim10_total_interface_witness :
    ((process_message sampleValidators sampleUuid sampleTs sampleClient
        rawNoFrom).1.status = "success" ∨
      (process_message sampleValidators sampleUuid sampleTs sampleClient
        rawNoFrom).1.status = "error") ∧
    ((process_message sampleValidators sampleUuid sampleTs sampleClient
        rawNoFrom).1.error_code = some "INVALID_MESSAGE_FORMAT" ∨
      (process_message sampleValidators sampleUuid sampleTs sampleClient
        rawNoFrom).1.error_code = some "INTERNAL_ERROR") := by
  have h := claim10_total_interface sampleValidators sampleUuid sampleTs
    sampleClient rawNoFrom
  exact ⟨h.1, h.2 rfl⟩

/-- C2 (amended): envelope-level violations short-circuit
`process_message` before any handler runs and before the payload validator
is consulted, with these corrections to the claim: a missing
sender/recipient key surfaces as a `KeyError` mapped to `INTERNAL_ERROR`
(not `INVALID_MESSAGE_FORMAT`), and an empty message id or timestamp is
auto-regenerated by `__post_init__` rather than rejected — the
`INVALID_MESSAGE_FORMAT` outcome holds for a wrong version, a non-empty
invalid message id or timestamp, and an empty sender/recipient value. -/
theorem claim2_envelope_short_circuit (V : Validators)
    (freshId nowTs : String) (C : Client) :
    (∀ (raw : RawMsg) (ty mid ts fr toA : String),
        raw.type = some ty → raw.message_id = some mid →
        raw.timestamp = some ts → raw.from_agent = some fr →
        raw.to_agent = some toA →
        (raw.version.getD "1.0.0" ≠ "1.0.0" ∨
          (mid ≠ "" ∧ V.uuidOk mid = false) ∨
          (ts ≠ "" ∧ V.tsOk ts = false) ∨ fr = "" ∨ toA = "") →
        (process_message V freshId nowTs C raw).1.status = "error" ∧
        (process_message V freshId nowTs C raw).1.error_code =
          some "INVALID_MESSAGE_FORMAT" ∧
        (process_message V freshId nowTs C raw).2.invoked = [] ∧
        (process_message V freshId nowTs C raw).2.payloadConsulted = false) ∧
    (∀ (raw : RawMsg) (ty mid ts : String) (mt : MessageType),
        raw.type = some ty → MessageType.ofString ty = some mt →
        raw.message_id = some mid → raw.timestamp = some ts →
        raw.from_agent = none →
        (process_message V freshId nowTs C raw).1.status = "error" ∧
        (process_message V freshId nowTs C raw).1.error_code =
          some "INTERNAL_ERROR" ∧
        (process_message V freshId nowTs C raw).2.invoked = [] ∧
        (process_message V freshId nowTs C raw).2.payloadConsulted =
          false) := by
  constructor
  · intro raw ty mid ts fr toA hty hmid hts hfr hto hv
    cases hos : MessageType.ofString ty with
    | none =>
        rw [process_message_error_of_from_dict
          (from_dict_unknown_type freshId nowTs raw hty hos)]
        simp [errorResponse]
    | some mt =>
        have hfd := from_dict_keys_present freshId nowTs raw hty hos hmid
          hts hfr hto
        rcases validate_envelope_error_shape V
            { version := raw.version.getD "1.0.0",
              message_id := if mid = "" then freshId else mid,
              timestamp := if ts = "" then nowTs else ts,
              from_agent := fr, to_agent := toA, type := mt,
              payload := (match raw.payload.getD (.obj []) with
                          | .null => .obj []
                          | p => p),
              signature := raw.signature } with hok | ⟨e, herr⟩
        · exfalso
          obtain ⟨g1, g2, g3, g4, g5, g6, g7⟩ := validate_envelope_ok hok
          rcases hv with hv | ⟨hne, hu⟩ | ⟨hne, ht2⟩ | hfr0 | hto0
          · exact hv g1
          · have g6' : V.uuidOk (if mid = "" then freshId else mid) =
                true := g6
            rw [if_neg hne, hu] at g6'
            exact Bool.noConfusion g6'
          · have g7' : V.tsOk (if ts = "" then nowTs else ts) = true := g7
            rw [if_neg hne, ht2] at g7'
            exact Bool.noConfusion g7'
          · exact g4 hfr0
          · exact g5 hto0
        · rw [process_message_error_of_envelope hfd herr]
          simp [errorResponse]
  · intro raw ty mid ts mt hty hos hmid hts hfr
    rw [process_message_error_of_from_dict
      (from_dict_missing_from freshId nowTs raw hty hos hmid hts hfr)]
    simp [errorResponse, PyExc.text]

/-- Witness for C2's theorem: an empty `from` value is rejected with
`INVALID_MESSAGE_FORMAT`, a missing `from` key with `INTERNAL_ERROR`; in
both runs no handler fires and the payload validator is not reached. -/
theorem claim2_envelope_short_circuit_witness :
    ((process_message sampleValidators sampleUuid sampleTs sampleClient
        rawEmptyFrom).1.status = "error" ∧
      (process_message sampleValidators sampleUuid sampleTs sampleClient
        rawEmptyFrom).1.error_code = some "INVALID_MESSAGE_FORMAT" ∧
      (process_message sampleValidators sampleUuid sampleTs sampleClient
        rawEmptyFrom).2.invoked = [] ∧
      (process_message sampleValidators sampleUuid sampleTs sampleClient
        rawEmptyFrom).2.payloadConsulted = false) ∧
    ((process_message sampleValidators sampleUuid sampleTs sampleClient
        rawNoFrom).1.status = "error" ∧
      (process_message sampleValidators sampleUuid sampleTs sampleClient
        rawNoFrom).1.error_code = some "INTERNAL_ERROR" ∧
      (process_message sampleValidators sampleUuid sampleTs sampleClient
        rawNoFrom).2.invoked = [] ∧
      (process_message sampleValidators sampleUuid sampleTs sampleClient
        rawNoFrom).2.payloadConsulted = false) := by
  constructor
  · exact (claim2_envelope_short_circuit sampleValidators sampleUuid
      sampleTs sampleClient).1 rawEmptyFrom "ping" sampleUuid sampleTs ""
      "agent-2" rfl rfl rfl rfl rfl
      (Or.inr (Or.inr (Or.inr (Or.inl rfl))))
  · exact (claim2_envelope_short_circuit sampleValidators sampleUuid
      sampleTs sampleClient).2 rawNoFrom "ping" sampleUuid sampleTs
      MessageType.ping rfl rfl rfl rfl rfl

/-- C2 as stated is false on the code: an inbound ping whose `message_id`
is the empty string — not a syntactically valid UUID — is not rejected:
`__post_init__` regenerates the id, the envelope passes validation, the
payload validator is consulted, and both registered handlers run, with a
success outcome. -/
theorem claim2_counterexample :
    (process_message sampleValidators sampleUuid sampleTs sampleClient
      rawEmptyMid).1.status = "success" ∧
    (process_message sampleValidators sampleUuid sampleTs sampleClient
      rawEmptyMid).2.invoked = [0, 1] ∧
    (process_message sampleValidators sampleUuid sampleTs sampleClient
      rawEmptyMid).2.payloadConsulted = true :=
  ⟨rfl, rfl, rfl⟩

/-- C6: an envelope (all wire keys present) whose version differs from
`"1.0.0"` is rejected with an `INVALID_MESSAGE_FORMAT` outcome, no handler
is invoked and the payload validator is never consulted; when the type
string is recognized the error text names the version mismatch. -/
theorem claim6_version_rejected (V : Validators) (freshId nowTs : String)
    (C : Client) (raw : RawMsg) (ty mid ts fr toA v : String)
    (hty : raw.type = some ty) (hmid : raw.message_id = some mid)
    (hts : raw.timestamp = some ts) (hfr : raw.from_agent = some fr)
    (hto : raw.to_agent = some toA) (hv : raw.version = some v)
    (hne : v ≠ "1.0.0") :
    (process_message V freshId nowTs C raw).1.status = "error" ∧
    (process_message V freshId nowTs C raw).1.error_code =
      some "INVALID_MESSAGE_FORMAT" ∧
    (process_message V freshId nowTs C raw).2.invoked = [] ∧
    (process_message V freshId nowTs C raw).2.payloadConsulted = false ∧
    (∀ mt, MessageType.ofString ty = some mt →
      (process_message V freshId nowTs C raw).1.error =
        some ("Unsupported version: " ++ v)) := by
  cases hos : MessageType.ofString ty with
  | none =>
      rw [process_message_error_of_from_dict
        (from_dict_unknown_type freshId nowTs raw hty hos)]
      simp [errorResponse, hos]
  | some mt =>
      have hfd := from_dict_keys_present freshId nowTs raw hty hos hmid hts
        hfr hto
      have henv : validate_envelope V
          { version := raw.version.getD "1.0.0",
            message_id := if mid = "" then freshId else mid,
            timestamp := if ts = "" then nowTs else ts,
            from_agent := fr, to_agent := toA, type := mt,
            payload := (match raw.payload.getD (.obj []) with
                        | .null => .obj []
                        | p => p),
            signature := raw.signature } =
          .error (.invalidMessage ("Unsupported version: " ++ v)) := by
        simp [validate_envelope, hv, hne]
      rw [process_message_error_of_envelope hfd henv]
      simp [errorResponse, hos]

/-- Witness for C6's theorem: the spec scenario — a ping with version
`"2.0.0"` and a valid nonce is rejected before the payload check with the
version-mismatch text. -/
theorem claim6_version_rejected_witness :
    (process_message sampleValidators sampleUuid sampleTs sampleClient
      rawBadVersion).1.status = "error" ∧
    (process_message sampleValidators sampleUuid sampleTs sampleClient
      rawBadVersion).1.error_code = some "INVALID_MESSAGE_FORMAT" ∧
    (process_message sampleValidators sampleUuid sampleTs sampleClient
      rawBadVersion).2.invoked = [] ∧
    (process_message sampleValidators sampleUuid sampleTs sampleClient
      rawBadVersion).2.payloadConsulted = false ∧
    (process_message sampleValidators sampleUuid sampleTs sampleClient
      rawBadVersion).1.error = some "Unsupported version: 2.0.0" := by
  have h := claim6_version_rejected sampleValidators sampleUuid sampleTs
    sampleClient rawBadVersion "ping" sampleUuid sampleTs "agent-1"
    "agent-2" "2.0.0" rfl rfl rfl rfl rfl rfl (by decide)
  exact ⟨h.1, h.2.1, h.2.2.1, h.2.2.2.1, h.2.2.2.2 MessageType.ping rfl⟩

/-- C5: on a validated envelope the dispatcher invokes every handler
registered for its type, in registration order, and returns a success
response echoing the message id — whatever the handlers do, since the
client `C` (hence each handler outcome) is arbitrary, a raising handler
neither stops later handlers nor changes the response. -/
theorem claim5_handler_isolation (V : Validators) (freshId nowTs : String)
    (C : Client) (raw : RawMsg) (message : A2AMessage)
    (hfd : A2AMessage.from_dict freshId nowTs raw = .ok message)
    (henv : validate_envelope V message = .ok ())
    (hpl : validate_payload message = .ok ()) :
    process_message V freshId nowTs C raw =
      ({ status := "success", message_id := some message.message_id,
         processed_at := some nowTs, error := none, error_code := none },
       ⟨List.range (C.handlers message.type).length, true⟩) := by
  simp [process_message, hfd, henv, hpl, dispatch_indices]

/-- Witness for C5's theorem: a valid ping against a client whose first
ping handler raises — both handlers are invoked, in order, and the outcome
is success echoing the message id. -/
theorem claim5_handler_isolation_witness :
    (process_message sampleValidators sampleUuid sampleTs sampleClient
      samplePing).1.status = "success" ∧
    (process_message sampleValidators sampleUuid sampleTs sampleClient
      samplePing).1.message_id = some sampleUuid ∧
    (process_message sampleValidators sampleUuid sampleTs sampleClient
      samplePing).2.invoked = [0, 1] := by
  have h := claim5_handler_isolation sampleValidators sampleUuid sampleTs
    sampleClient samplePing sampleMsg rfl rfl rfl
  refine ⟨by rw [h], by rw [h]; rfl, by rw [h]; decide⟩

/-- C8 (amended): the seven state-changing `TaskManager` methods hold
`self.lock` across their read-modify-write on `self.tasks` and release it
on every exit path; the five query methods, contrary to the claim, take no
lock at all — their snapshot read happens outside any critical section. -/
theorem claim8_lock_discipline :
    (∀ op ∈ mutatorOps, ∀ tr ∈ opTraces op, wellLocked tr = true) ∧
    (∀ op ∈ queryOps, ∀ tr ∈ opTraces op,
        LockEvent.acquire ∉ tr ∧ (tr ≠ [] → wellLocked tr = false)) := by
  decide

/-- Witness for C8's theorem: the `assign_task` success trace is fully
guarded, while the `get_task` trace contains no lock acquisition. -/
theorem claim8_lock_discipline_witness :
    wellLocked [LockEvent.acquire, LockEvent.read, LockEvent.write,
      LockEvent.release] = true ∧
    LockEvent.acquire ∉ ([LockEvent.read] : List LockEvent) := by
  have h := claim8_lock_discipline
  exact ⟨h.1 StoreOp.assign_task (by decide) _ (by decide),
         (h.2 StoreOp.get_task (by decide) [LockEvent.read] (by decide)).1⟩

/-- C8 as stated is false on the code: `get_task` reads `self.tasks` with
no `with self.lock:` around it, so its trace is not inside the critical
section. -/
theorem claim8_counterexample :
    (opTraces StoreOp.get_task).all wellLocked = false := by decide

end A2A
